import Mathlib

/-!
Verification of the frame-pair classification pipeline
(`src/app/server/pipeline/__init__.py`).

The Python source is shallowly embedded: images are lists of grayscale
pixel intensities, the external OpenCV / Ollama capabilities (SIFT
feature extraction, brute-force descriptor matching, the inference
client) are parameters collected in an `Env` record, and the filesystem
is a list of file paths.  Every definition below follows the source
function of the same name.
-/

namespace PRaCfID

/-- A decoded grayscale raster image: the list of its pixel intensities
(the colour-to-gray conversion is performed by OpenCV outside the
embedded core, so images arrive single-channel). -/
abbrev Image := List Nat

/-- A SIFT feature descriptor (opaque to the pipeline logic). -/
abbrev Desc := List Nat

/-- One correspondence returned by the brute-force matcher; the pipeline
only inspects its distance. -/
structure DMatch where
  distance : Nat
deriving DecidableEq

/-- The inference client's reply (`res` with `message.content`). -/
structure ChatResponse where
  content : String
deriving DecidableEq

/-- The external capabilities the pipeline is parameterised by:
`chat` is `ollama.chat` (an `Except.error` models a raised exception),
`sift` is `cv2.SIFT.detectAndCompute` (`none` models a raised
`cv2.error`, `some ds` the computed descriptor list, with `some []` for
an image yielding no keypoints), and `bfMatch` is
`cv2.BFMatcher(NORM_L2, crossCheck=True).match`. -/
structure Env where
  chat : Image → String → Except String ChatResponse
  sift : Image → Option (List Desc)
  bfMatch : List Desc → List Desc → List DMatch

/-- A path in the modelled filesystem, as a list of components. -/
abbrev FPath := List String

/-! ## Solid-Frame Detector (`is_mostly_black_or_white`) -/

/-- Embedding of `is_mostly_black_or_white`: `none` models a `None`
input image; fractions are computed exactly in `ℚ`. -/
def is_mostly_black_or_white (image_cv : Option Image) (black_threshold_val : Nat)
    (white_threshold_val : Nat) (percentage_threshold : ℚ) : Bool :=
  match image_cv with
  | none => false
  | some gray_image =>
    let total_pixels := gray_image.length
    if total_pixels = 0 then false
    else
      let black_pixels := (gray_image.filter (fun p => p ≤ black_threshold_val)).length
      let white_pixels := (gray_image.filter (fun p => white_threshold_val ≤ p)).length
      let black_percentage : ℚ := (black_pixels : ℚ) / (total_pixels : ℚ)
      let white_percentage : ℚ := (white_pixels : ℚ) / (total_pixels : ℚ)
      decide (percentage_threshold ≤ black_percentage) ||
        decide (percentage_threshold ≤ white_percentage)

/-! ## Scene Content Classifier (`modelObjectDetection`) -/

/-- Case-insensitive substring search, embedding
`re.search(r'False', content, re.IGNORECASE)`. -/
def containsFalseCI (s : String) : Bool :=
  let hay := s.toLower.toList
  let needle := "false".toList
  (List.range (hay.length + 1)).any (fun i => needle.isPrefixOf (hay.drop i))

/-- Embedding of `modelObjectDetection`.  The returned pair is
`(objects_detected, model_response_content)`; `objects_detected = true`
means the frame is disqualified. -/
def modelObjectDetection (env : Env) (frame_cv : Option Image)
    (model_prompt_content : String) : Bool × String :=
  match frame_cv with
  | none => (true, "Error: Input frame was None.")
  | some frame =>
    match env.chat frame model_prompt_content with
    | Except.error _ => (true, "Error in model processing.")
    | Except.ok res =>
      let model_response_content := res.content
      let objects_detected := !(containsFalseCI model_response_content)
      (objects_detected, model_response_content)

/-! ## Pattern Matcher (`patternThresholding`) -/

/-- Insertion of a match into a distance-sorted list (used to embed
Python's `sorted(matches, key=lambda x: x.distance)`). -/
def insertByDist (m : DMatch) : List DMatch → List DMatch
  | [] => [m]
  | x :: xs => if m.distance ≤ x.distance then m :: x :: xs else x :: insertByDist m xs

/-- Sorting of the match list by distance. -/
def sortByDist : List DMatch → List DMatch
  | [] => []
  | x :: xs => insertByDist x (sortByDist xs)

/-- Body of the `for pattern_img_gray, pattern_name in ...` loop of
`patternThresholding`: the accumulator is
`(best_match_name, max_good_matches)`; a `None` pattern image, a SIFT
error and an empty descriptor set all `continue` (leave the
accumulator unchanged). -/
def patternStep (env : Env) (test_descriptors : List Desc) (threshold_match_val : Nat)
    (acc : Option String × Nat) (p : Option Image × String) : Option String × Nat :=
  match p.1 with
  | none => acc
  | some pattern_img_gray =>
    match env.sift pattern_img_gray with
    | none => acc
    | some pattern_descriptors =>
      if pattern_descriptors.length = 0 then acc
      else
        let sorted_matches := sortByDist (env.bfMatch test_descriptors pattern_descriptors)
        let good_matches := sorted_matches.filter (fun m => m.distance < threshold_match_val)
        let num_good_matches := good_matches.length
        if acc.2 < num_good_matches then (some p.2, num_good_matches) else acc

/-- Embedding of `patternThresholding`: returns `none` for a `None`
input, a SIFT failure on the test image or an empty test-descriptor
set, and otherwise the final
`best_match_name if max_good_matches > 0 else "No_Pattern_Match"`. -/
def patternThresholding (env : Env) (test_image_cv : Option Image)
    (loaded_pattern_images_data : List (Option Image × String))
    (threshold_match_val : Nat) : Option String :=
  match test_image_cv with
  | none => none
  | some test_img_gray =>
    match env.sift test_img_gray with
    | none => none
    | some test_descriptors =>
      if test_descriptors.length = 0 then none
      else
        let r := loaded_pattern_images_data.foldl
          (patternStep env test_descriptors threshold_match_val) (none, 0)
        if 0 < r.2 then r.1 else some "No_Pattern_Match"

/-- The good-match count a single reference contributes in
`patternThresholding` (0 for a reference that is skipped). -/
def refGoodCount (env : Env) (test_descriptors : List Desc) (threshold_match_val : Nat)
    (p : Option Image × String) : Nat :=
  match p.1 with
  | none => 0
  | some pattern_img_gray =>
    match env.sift pattern_img_gray with
    | none => 0
    | some pattern_descriptors =>
      if pattern_descriptors.length = 0 then 0
      else ((env.bfMatch test_descriptors pattern_descriptors).filter
        (fun m => m.distance < threshold_match_val)).length

/-! ## Output persistence (`sort_into_folders`, log, zip) -/

/-- The two files `sort_into_folders` writes for one accepted pair. -/
def sort_into_folders (output_base_dir : FPath) (name_folder : String)
    (raw_image_name realsense_image_name : String) : List FPath :=
  [output_base_dir ++ [name_folder, "raw", raw_image_name],
   output_base_dir ++ [name_folder, "realsense", realsense_image_name]]

/-! ## Frame-Pair Evaluator (`load_and_process_frame_pair`) -/

/-- The three stage-enable flags of `pipeline_processes_config`. -/
structure PipelineConfig where
  run_solid_color_check : Bool
  run_object_detection : Bool
  run_pattern_matching : Bool
deriving DecidableEq

/-- The `bw_filter_params` dict. -/
structure BwParams where
  black_thresh : Nat
  white_thresh : Nat
  percentage_thresh : ℚ
deriving DecidableEq

/-- Embedding of `load_and_process_frame_pair`: returns the verdict
`(accepted, reason_or_category)` together with the files written for an
accepted pair.  Mirrors the source's Python-truthiness test
`if best_match_name:` (both `None` and the empty string fall through to
`"No_Pattern_Match"`). -/
def load_and_process_frame_pair (env : Env)
    (raw_frame_cv : Image) (raw_frame_name : String)
    (realsense_frame_cv : Image) (realsense_frame_name : String)
    (loaded_pattern_images_data : List (Option Image × String))
    (output_base_dir_for_accepted : FPath)
    (run_solid_color_check run_object_detection run_pattern_matching : Bool)
    (bw_filter_params : BwParams)
    (obj_detect_prompt : String)
    (pattern_match_sift_distance_thresh : Nat) :
    (Bool × String) × List FPath :=
  if run_solid_color_check &&
      is_mostly_black_or_white (some realsense_frame_cv)
        bw_filter_params.black_thresh bw_filter_params.white_thresh
        bw_filter_params.percentage_thresh then
    ((false, "Rejected: Mostly black or white"), [])
  else if run_object_detection &&
      (modelObjectDetection env (some raw_frame_cv) obj_detect_prompt).1 then
    ((false, "Rejected: Man-made objects detected (" ++
      (modelObjectDetection env (some raw_frame_cv) obj_detect_prompt).2.take 50 ++
      "...)"), [])
  else
    let classification_name :=
      if run_pattern_matching then
        if loaded_pattern_images_data.isEmpty then "No_Patterns_Available"
        else
          match patternThresholding env (some realsense_frame_cv)
              loaded_pattern_images_data pattern_match_sift_distance_thresh with
          | some s => if s = "" then "No_Pattern_Match" else s
          | none => "No_Pattern_Match"
      else "Uncategorized"
    ((true, classification_name),
     sort_into_folders output_base_dir_for_accepted classification_name
       raw_frame_name realsense_frame_name)

/-! ## Video Pair Walker (`process_video_frames` main loop) -/

/-- Zero-padding to width 5, embedding Python's `f"{i:05d}"`. -/
def pad5 (i : Nat) : String :=
  let s := toString i
  if s.length < 5 then (List.replicate (5 - s.length) '0').asString ++ s else s

/-- `f"raw_frame_{frame_count:05d}.png"`. -/
def raw_frame_name (i : Nat) : String := "raw_frame_" ++ (pad5 i ++ ".png")

/-- `f"realsense_frame_{frame_count:05d}.png"`. -/
def realsense_frame_name (i : Nat) : String := "realsense_frame_" ++ (pad5 i ++ ".png")

/-- The verdict produced for one frame pair, with its index. -/
structure VerdictRec where
  idx : Nat
  accepted : Bool
  reason : String
deriving DecidableEq

/-- The observable outcome of the walker loop: pairs processed, the
verdict trace, `removed_images_log_data`, the files written for the
accepted pairs, and how many frames were consumed from each source
(`cap.read()` is called on BOTH captures every iteration, so in the
terminating iteration the longer source still yields one frame). -/
structure LoopResult where
  processed : Nat
  verdicts : List VerdictRec
  removed_log : List (String × String)
  written : List FPath
  raw_consumed : Nat
  rs_consumed : Nat
deriving DecidableEq

/-- Embedding of the `while True` loop of `process_video_frames`: one
frame is read from each source per iteration and the loop breaks as
soon as either read fails. -/
def framePairLoop (env : Env) (loaded_patterns : List (Option Image × String))
    (output_base_dir : FPath) (cfg : PipelineConfig) (bw : BwParams)
    (prompt : String) (sift_thresh : Nat) :
    List Image → List Image → Nat → LoopResult
  | raw_frame :: raws, realsense_frame :: rss, frame_count =>
    let rn := raw_frame_name frame_count
    let sn := realsense_frame_name frame_count
    let r := load_and_process_frame_pair env raw_frame rn realsense_frame sn
      loaded_patterns output_base_dir
      cfg.run_solid_color_check cfg.run_object_detection cfg.run_pattern_matching
      bw prompt sift_thresh
    let rest := framePairLoop env loaded_patterns output_base_dir cfg bw prompt
      sift_thresh raws rss (frame_count + 1)
    { processed := rest.processed + 1
      verdicts := ⟨frame_count, r.1.1, r.1.2⟩ :: rest.verdicts
      removed_log := (if r.1.1 then [] else [(rn, r.1.2)]) ++ rest.removed_log
      written := r.2 ++ rest.written
      raw_consumed := rest.raw_consumed + 1
      rs_consumed := rest.rs_consumed + 1 }
  | [], [], _ => ⟨0, [], [], [], 0, 0⟩
  | [], _ :: _, _ => ⟨0, [], [], [], 0, 1⟩
  | _ :: _, [], _ => ⟨0, [], [], [], 1, 0⟩

/-! ## Run orchestration (`process_video_frames`) -/

/-- The numeric thresholds and prompt of `thres_params` (after the
`.get(..., default)` lookups). -/
structure ThresParams where
  black_threshold_bw : Nat
  white_threshold_bw : Nat
  solid_color_detection : ℚ
  object_detection_prompt : String
  pattern_thresholding_value : Nat

/-- `pipeline_output / job_id / "Accepted_images"`. -/
def output_base_dir_of (job_id : String) : FPath :=
  ["pipeline_output", job_id, "Accepted_images"]

/-- `shutil.rmtree(output_base_dir)` followed by
`mkdir(parents=True)`: every file under the output base directory is
removed (directories are implicit in the file-set model). -/
def prepare_output_dir (job_id : String) (fs : List FPath) : List FPath :=
  fs.filter (fun p => !((output_base_dir_of job_id).isPrefixOf p))

/-- The path of the rejection log written by
`create_text_file_with_removed_images(output_base_dir, ...)`. -/
def removed_log_path (job_id : String) : FPath :=
  output_base_dir_of job_id ++ ["removed_images_log.txt"]

/-- `f"Results_{job_id}.zip"`. -/
def zip_name_of (job_id : String) : String := "Results_" ++ (job_id ++ ".zip")

/-- The observable outcome of `process_video_frames`:
`fs_after_prepare` is the filesystem just after the output directory
has been cleared and recreated (before the first frame is read),
`final_fs` the filesystem when the function returns, and
`zip_file_name` the returned archive name (`none` when no zip was
created). -/
structure RunOutput where
  fs_after_prepare : List FPath
  final_fs : List FPath
  processed_frame_count : Nat
  zip_file_name : Option String
  removed_log : List (String × String)
  loop : LoopResult

/-- Embedding of `process_video_frames`.  The two videos are given as
their frame lists and `pattern_images` as the decoded image (or `none`
for an unreadable file) at each supplied pattern path; `fs0` is the
filesystem before the run.  The rejection log file is written into
`output_base_dir` and only afterwards is `os.listdir(output_base_dir)`
consulted to decide whether to build the zip. -/
def process_video_frames (env : Env) (job_id : String)
    (raw_video realsense_video : List Image)
    (pattern_images : List (Option Image × String))
    (thres_params : ThresParams) (cfg : PipelineConfig)
    (fs0 : List FPath) : RunOutput :=
  let output_base_dir := output_base_dir_of job_id
  let fs1 := prepare_output_dir job_id fs0
  let loaded_patterns : List (Option Image × String) :=
    if cfg.run_pattern_matching then
      pattern_images.filterMap (fun p =>
        match p.1 with
        | some img => some ((some img : Option Image), p.2)
        | none => none)
    else []
  let bw : BwParams :=
    ⟨thres_params.black_threshold_bw, thres_params.white_threshold_bw,
     thres_params.solid_color_detection⟩
  let L := framePairLoop env loaded_patterns output_base_dir cfg bw
    thres_params.object_detection_prompt thres_params.pattern_thresholding_value
    raw_video realsense_video 0
  let fs2 := fs1 ++ L.written
  let fs3 := fs2 ++ [removed_log_path job_id]
  let hasContent := fs3.any (fun p => output_base_dir.isPrefixOf p)
  let zip_file_name := if hasContent then some (zip_name_of job_id) else none
  { fs_after_prepare := fs1
    final_fs := fs3
    processed_frame_count := L.processed
    zip_file_name := zip_file_name
    removed_log := L.removed_log
    loop := L }

/-- A closed environment used to evaluate the embedding at concrete
inputs: the inference client always raises, SIFT yields one descriptor
per pixel, and the matcher returns a single distance-0 correspondence. -/
def env0 : Env where
  chat := fun _ _ => Except.error "connection error"
  sift := fun img => some (img.map (fun p => [p]))
  bfMatch := fun _ _ => [⟨0⟩]

/-- Concrete configuration with every stage disabled. -/
def cfgOff : PipelineConfig := ⟨false, false, false⟩

/-- Concrete configuration with only the solid-color stage enabled. -/
def cfgSolid : PipelineConfig := ⟨true, false, false⟩

/-- Concrete default thresholds (30 / 225 / 0.60 / prompt / 200). -/
def tp0 : ThresParams := ⟨30, 225, 3/5, "Analyze...", 200⟩

/-! ## Helper lemmas -/

lemma isPrefixOf_eq_true_iff {α : Type} [BEq α] [LawfulBEq α] (l p : List α) :
    l.isPrefixOf p = true ↔ ∃ r, p = l ++ r := by
  induction l generalizing p with
  | nil => simp [List.isPrefixOf]
  | cons a as ih =>
    cases p with
    | nil => simp [List.isPrefixOf]
    | cons b bs =>
      simp only [List.isPrefixOf, Bool.and_eq_true, beq_iff_eq, ih, List.cons_append,
        List.cons.injEq]
      constructor
      · rintro ⟨rfl, r, rfl⟩
        exact ⟨r, rfl, rfl⟩
      · rintro ⟨r, rfl, rfl⟩
        exact ⟨rfl, r, rfl⟩

lemma containsFalseCI_iff (s : String) :
    containsFalseCI s = true ↔
      ∃ pre post : List Char, s.toLower.toList = pre ++ ("false".toList ++ post) := by
  unfold containsFalseCI
  simp only [List.any_eq_true, List.mem_range, isPrefixOf_eq_true_iff]
  constructor
  · rintro ⟨i, _, r, hr⟩
    refine ⟨s.toLower.toList.take i, r, ?_⟩
    conv_lhs => rw [← List.take_append_drop i s.toLower.toList]
    rw [hr]
  · rintro ⟨pre, post, hs⟩
    refine ⟨pre.length, ?_, post, ?_⟩
    · have : s.toLower.toList.length = pre.length + ("false".toList ++ post).length := by
        rw [hs, List.length_append]
      omega
    · rw [hs, List.drop_left]

lemma insertByDist_perm (m : DMatch) (l : List DMatch) :
    (insertByDist m l).Perm (m :: l) := by
  induction l with
  | nil => exact List.Perm.refl _
  | cons x xs ih =>
    unfold insertByDist
    by_cases h : m.distance ≤ x.distance
    · simp [h]
    · simp only [h, if_false]
      exact (ih.cons x).trans (List.Perm.swap m x xs)

lemma sortByDist_perm (l : List DMatch) : (sortByDist l).Perm l := by
  induction l with
  | nil => exact List.Perm.refl _
  | cons x xs ih =>
    exact (insertByDist_perm x (sortByDist xs)).trans (ih.cons x)

lemma sortByDist_filter_length (ms : List DMatch) (pred : DMatch → Bool) :
    ((sortByDist ms).filter pred).length = (ms.filter pred).length :=
  ((sortByDist_perm ms).filter pred).length_eq

/-- The loop body of `patternThresholding` updates the running
`(best_match_name, max_good_matches)` pair exactly when the current
reference's good-match count strictly exceeds the running maximum. -/
lemma patternStep_eq (env : Env) (ds : List Desc) (th : Nat)
    (acc : Option String × Nat) (p : Option Image × String) :
    patternStep env ds th acc p =
      if acc.2 < refGoodCount env ds th p then (some p.2, refGoodCount env ds th p)
      else acc := by
  obtain ⟨pi, pn⟩ := p
  cases pi with
  | none => simp [patternStep, refGoodCount]
  | some pimg =>
    cases hs : env.sift pimg with
    | none => simp [patternStep, refGoodCount, hs]
    | some pd =>
      by_cases h0 : pd.length = 0
      · simp [patternStep, refGoodCount, hs, h0]
      · simp only [patternStep, refGoodCount, hs, h0, if_false]
        rw [sortByDist_filter_length]

lemma fold_snd_ge_acc (env : Env) (ds : List Desc) (th : Nat) :
    ∀ (l : List (Option Image × String)) (acc : Option String × Nat),
      acc.2 ≤ (l.foldl (patternStep env ds th) acc).2 := by
  intro l
  induction l with
  | nil => intro acc; exact Nat.le_refl _
  | cons q l ih =>
    intro acc
    rw [List.foldl_cons, patternStep_eq]
    by_cases h : acc.2 < refGoodCount env ds th q
    · simp only [h, if_true]
      exact Nat.le_trans (Nat.le_of_lt h) (ih (some q.2, refGoodCount env ds th q))
    · simp only [h, if_false]
      exact ih acc

lemma fold_snd_ge_elem (env : Env) (ds : List Desc) (th : Nat)
    (p : Option Image × String) :
    ∀ (l : List (Option Image × String)) (acc : Option String × Nat), p ∈ l →
      refGoodCount env ds th p ≤ (l.foldl (patternStep env ds th) acc).2 := by
  intro l
  induction l with
  | nil => intro acc hp; cases hp
  | cons q l ih =>
    intro acc hp
    rw [List.foldl_cons, patternStep_eq]
    rcases List.mem_cons.mp hp with rfl | hmem
    · by_cases h : acc.2 < refGoodCount env ds th p
      · simp only [h, if_true]
        exact Nat.le_trans (Nat.le_refl _)
          (fold_snd_ge_acc env ds th l (some p.2, refGoodCount env ds th p))
      · simp only [h, if_false]
        exact Nat.le_trans (Nat.le_of_not_lt h) (fold_snd_ge_acc env ds th l acc)
    · by_cases h : acc.2 < refGoodCount env ds th q
      · simp only [h, if_true]
        exact ih _ hmem
      · simp only [h, if_false]
        exact ih acc hmem

lemma fold_snd_lt (env : Env) (ds : List Desc) (th : Nat) (c : Nat) :
    ∀ (l : List (Option Image × String)) (acc : Option String × Nat),
      (∀ p ∈ l, refGoodCount env ds th p < c) → acc.2 < c →
      (l.foldl (patternStep env ds th) acc).2 < c := by
  intro l
  induction l with
  | nil => intro acc _ ha; exact ha
  | cons q l ih =>
    intro acc hl ha
    rw [List.foldl_cons, patternStep_eq]
    by_cases h : acc.2 < refGoodCount env ds th q
    · simp only [h, if_true]
      exact ih (some q.2, refGoodCount env ds th q)
        (fun p hp => hl p (List.mem_cons_of_mem q hp)) (hl q (List.mem_cons_self q l))
    · simp only [h, if_false]
      exact ih acc (fun p hp => hl p (List.mem_cons_of_mem q hp)) ha

lemma fold_keep (env : Env) (ds : List Desc) (th : Nat) :
    ∀ (l : List (Option Image × String)) (acc : Option String × Nat),
      (∀ p ∈ l, refGoodCount env ds th p ≤ acc.2) →
      l.foldl (patternStep env ds th) acc = acc := by
  intro l
  induction l with
  | nil => intro acc _; rfl
  | cons q l ih =>
    intro acc h
    rw [List.foldl_cons, patternStep_eq]
    have hq : ¬ acc.2 < refGoodCount env ds th q :=
      Nat.not_lt.mpr (h q (List.mem_cons_self q l))
    simp only [hq, if_false]
    exact ih acc (fun p hp => h p (List.mem_cons_of_mem q hp))

lemma fold_fst_cases (env : Env) (ds : List Desc) (th : Nat)
    (l : List (Option Image × String)) (acc : Option String × Nat) :
    ((l.foldl (patternStep env ds th) acc).1 = acc.1 ∧
      (l.foldl (patternStep env ds th) acc).2 = acc.2) ∨
      ∃ p ∈ l, (l.foldl (patternStep env ds th) acc).1 = some p.2 := by
  induction l generalizing acc with
  | nil => exact Or.inl ⟨rfl, rfl⟩
  | cons q l ih =>
    rw [List.foldl_cons, patternStep_eq]
    by_cases h : acc.2 < refGoodCount env ds th q
    · simp only [h, if_true]
      rcases ih (some q.2, refGoodCount env ds th q) with ⟨h1, _⟩ | ⟨p, hp, h1⟩
      · exact Or.inr ⟨q, List.mem_cons_self q l, h1⟩
      · exact Or.inr ⟨p, List.mem_cons_of_mem q hp, h1⟩
    · simp only [h, if_false]
      rcases ih acc with ⟨h1, h2⟩ | ⟨p, hp, h1⟩
      · exact Or.inl ⟨h1, h2⟩
      · exact Or.inr ⟨p, List.mem_cons_of_mem q hp, h1⟩

lemma is_mostly_iff (g : Image) (b w : Nat) (pct : ℚ) (hg : g ≠ []) :
    is_mostly_black_or_white (some g) b w pct = true ↔
      pct ≤ ((g.filter (fun p => p ≤ b)).length : ℚ) / (g.length : ℚ) ∨
      pct ≤ ((g.filter (fun p => w ≤ p)).length : ℚ) / (g.length : ℚ) := by
  have hlen : g.length ≠ 0 := fun h => hg (List.length_eq_zero.mp h)
  simp [is_mostly_black_or_white, hlen]

/-! ## Claim theorems -/

/-- C5: `is_mostly_black_or_white` returns `true` iff the fraction of
pixels with intensity `≤ blackCutoff` is `≥ fractionCutoff` or the
fraction with intensity `≥ whiteCutoff` is `≥ fractionCutoff`; under
the defaults 30 / 225 / 0.60 any image with `≥ 60%` pixels at or below
30 or at or above 225 yields `true` and a uniform mid-gray image yields
`false`; a `None` or zero-pixel image returns `false`. -/
theorem claim_C5_is_mostly_black_or_white (g : Image) (b w : Nat) (pct : ℚ)
    (hg : g ≠ []) :
    (is_mostly_black_or_white (some g) b w pct = true ↔
      pct ≤ ((g.filter (fun p => p ≤ b)).length : ℚ) / (g.length : ℚ) ∨
      pct ≤ ((g.filter (fun p => w ≤ p)).length : ℚ) / (g.length : ℚ)) ∧
    is_mostly_black_or_white none b w pct = false ∧
    is_mostly_black_or_white (some []) b w pct = false ∧
    ((3/5 : ℚ) ≤ ((g.filter (fun p => p ≤ 30)).length : ℚ) / (g.length : ℚ) ∨
      (3/5 : ℚ) ≤ ((g.filter (fun p => 225 ≤ p)).length : ℚ) / (g.length : ℚ) →
      is_mostly_black_or_white (some g) 30 225 (3/5) = true) ∧
    (∀ v : Nat, 30 < v → v < 225 →
      is_mostly_black_or_white (some (g.map (fun _ => v))) 30 225 (3/5) = false) := by
  refine ⟨is_mostly_iff g b w pct hg, rfl, by simp [is_mostly_black_or_white], ?_, ?_⟩
  · exact fun h => (is_mostly_iff g 30 225 (3/5) hg).mpr h
  · intro v hvb hvw
    have hne : (g.map (fun _ => v)) ≠ [] := by
      simpa using hg
    rw [Bool.eq_false_iff]
    intro htrue
    have hb : (g.map (fun _ => v)).filter (fun p => p ≤ 30) = [] := by
      rw [List.filter_eq_nil_iff]
      intro a ha
      rcases List.mem_map.mp ha with ⟨x, -, rfl⟩
      simp
      omega
    have hw : (g.map (fun _ => v)).filter (fun p => 225 ≤ p) = [] := by
      rw [List.filter_eq_nil_iff]
      intro a ha
      rcases List.mem_map.mp ha with ⟨x, -, rfl⟩
      simp
      omega
    rcases (is_mostly_iff _ 30 225 (3/5) hne).mp htrue with h | h
    · rw [hb] at h
      norm_num at h
    · rw [hw] at h
      norm_num at h

/-- C5 witness: the defaults on an all-black three-pixel image. -/
theorem claim_C5_witness :
    ([0, 0, 0] ≠ ([] : Image)) ∧
      is_mostly_black_or_white (some [0, 0, 0]) 30 225 (3/5) = true :=
  ⟨by decide,
   (claim_C5_is_mostly_black_or_white [0, 0, 0] 30 225 (3/5) (by decide)).1.mpr
     (by norm_num)⟩

/-- C3: `patternThresholding` returns `none` exactly when the query
image yields zero feature descriptors, and returns the sentinel
`"No_Pattern_Match"` exactly when descriptors exist but no reference
achieves a good-match count greater than zero; the two outcomes are
distinct constructors and never conflated. -/
theorem claim_C3_patternThresholding_sentinels (env : Env) (img : Image)
    (ds : List Desc) (pats : List (Option Image × String)) (th : Nat)
    (hs : env.sift img = some ds)
    (hn : ∀ p ∈ pats, p.2 ≠ "No_Pattern_Match") :
    (patternThresholding env (some img) pats th = none ↔ ds = []) ∧
    (patternThresholding env (some img) pats th = some "No_Pattern_Match" ↔
      ds ≠ [] ∧ ∀ p ∈ pats, refGoodCount env ds th p = 0) := by
  by_cases hds : ds = []
  · subst hds
    simp [patternThresholding, hs]
  · have hlen : ¬ ds.length = 0 := fun h => hds (List.length_eq_zero.mp h)
    have hres : patternThresholding env (some img) pats th =
        (if 0 < (pats.foldl (patternStep env ds th) (none, 0)).2
          then (pats.foldl (patternStep env ds th) (none, 0)).1
          else some "No_Pattern_Match") := by
      simp [patternThresholding, hs, hlen]
    rw [hres]
    constructor
    · constructor
      · intro hnone
        exfalso
        by_cases hpos : 0 < (pats.foldl (patternStep env ds th) (none, 0)).2
        · rw [if_pos hpos] at hnone
          rcases fold_fst_cases env ds th pats (none, 0) with ⟨-, h2⟩ | ⟨p, -, h1⟩
          · rw [h2] at hpos
            exact Nat.lt_irrefl 0 hpos
          · rw [h1] at hnone
            cases hnone
        · rw [if_neg hpos] at hnone
          cases hnone
      · intro h
        exact absurd h hds
    · constructor
      · intro hsent
        refine ⟨hds, ?_⟩
        by_contra hnz
        push_neg at hnz
        rcases hnz with ⟨p0, hp0, hc0⟩
        have hpos : 0 < (pats.foldl (patternStep env ds th) (none, 0)).2 :=
          Nat.lt_of_lt_of_le (Nat.pos_of_ne_zero hc0)
            (fold_snd_ge_elem env ds th p0 pats (none, 0) hp0)
        rw [if_pos hpos] at hsent
        rcases fold_fst_cases env ds th pats (none, 0) with ⟨-, h2⟩ | ⟨q, hq, h1⟩
        · rw [h2] at hpos
          exact Nat.lt_irrefl 0 hpos
        · rw [h1] at hsent
          exact hn q hq (Option.some.inj hsent)
      · rintro ⟨-, hz⟩
        rw [fold_keep env ds th pats (none, 0) (fun p hp => Nat.le_of_eq (hz p hp))]
        rfl

/-- C3 witness: a blank query image yields zero descriptors under
`env0` and the matcher returns `none`. -/
theorem claim_C3_witness : patternThresholding env0 (some []) [] 200 = none :=
  (claim_C3_patternThresholding_sentinels env0 [] [] [] 200 rfl (by simp)).1.mpr rfl

/-- C4: a correspondence counts as a good match iff its distance is
strictly below the cutoff, and when an earlier-listed reference already
attains the (nonzero) maximal good-match count, no later reference
with an equal count replaces it: the earlier-listed reference's name is
returned. -/
theorem claim_C4_good_match_tie_break (env : Env) (img : Image) (ds : List Desc)
    (th : Nat) (l1 l2 : List (Option Image × String)) (r1 : Option Image × String)
    (hs : env.sift img = some ds) (hd : ds ≠ [])
    (hc : 0 < refGoodCount env ds th r1)
    (h1 : ∀ p ∈ l1, refGoodCount env ds th p < refGoodCount env ds th r1)
    (h2 : ∀ p ∈ l2, refGoodCount env ds th p ≤ refGoodCount env ds th r1) :
    patternThresholding env (some img) (l1 ++ r1 :: l2) th = some r1.2 ∧
    ∀ (ms : List DMatch) (m : DMatch),
      m ∈ (sortByDist ms).filter (fun x => x.distance < th) ↔
        m ∈ ms ∧ m.distance < th := by
  constructor
  · have hlen : ¬ ds.length = 0 := fun h => hd (List.length_eq_zero.mp h)
    have hres : patternThresholding env (some img) (l1 ++ r1 :: l2) th =
        (if 0 < ((l1 ++ r1 :: l2).foldl (patternStep env ds th) (none, 0)).2
          then ((l1 ++ r1 :: l2).foldl (patternStep env ds th) (none, 0)).1
          else some "No_Pattern_Match") := by
      simp [patternThresholding, hs, hlen]
    have ha1 : (l1.foldl (patternStep env ds th) (none, 0)).2 <
        refGoodCount env ds th r1 :=
      fold_snd_lt env ds th (refGoodCount env ds th r1) l1 (none, 0) h1 hc
    have hfold : (l1 ++ r1 :: l2).foldl (patternStep env ds th) (none, 0) =
        (some r1.2, refGoodCount env ds th r1) := by
      rw [List.foldl_append, List.foldl_cons, patternStep_eq, if_pos ha1]
      exact fold_keep env ds th l2 (some r1.2, refGoodCount env ds th r1) h2
    rw [hres, hfold, if_pos hc]
  · intro ms m
    rw [List.mem_filter, (sortByDist_perm ms).mem_iff, decide_eq_true_eq]

/-- C4 witness: two references with the same nonzero good-match count;
the earlier one wins. -/
theorem claim_C4_witness :
    patternThresholding env0 (some [7]) [(some [1], "A"), (some [1], "B")] 200 =
      some "A" :=
  (claim_C4_good_match_tie_break env0 [7] [[7]] 200 [] [(some [1], "B")]
    (some [1], "A") rfl (by decide) (by decide) (by simp) (by decide)).1

/-- C6: `modelObjectDetection` reports `disqualified = false` iff the
inference response text contains "False" case-insensitively (as a
substring), and on any failure of the inference call it reports
`disqualified = true` with an error text as the returned verdict
text. -/
theorem claim_C6_modelObjectDetection (env : Env) (frame : Image) (prompt : String) :
    (∀ res, env.chat frame prompt = Except.ok res →
      (((modelObjectDetection env (some frame) prompt).1 = false ↔
          containsFalseCI res.content = true) ∧
        (modelObjectDetection env (some frame) prompt).2 = res.content)) ∧
    (∀ e, env.chat frame prompt = Except.error e →
      modelObjectDetection env (some frame) prompt =
        (true, "Error in model processing.")) ∧
    (∀ s : String, containsFalseCI s = true ↔
      ∃ pre post : List Char, s.toLower.toList = pre ++ ("false".toList ++ post)) := by
  refine ⟨?_, ?_, containsFalseCI_iff⟩
  · intro res hres
    simp [modelObjectDetection, hres]
  · intro e he
    simp [modelObjectDetection, he]

/-- C6 witness: the failing client of `env0`. -/
theorem claim_C6_witness :
    modelObjectDetection env0 (some [1]) "p" = (true, "Error in model processing.") :=
  (claim_C6_modelObjectDetection env0 [1] "p").2.1 "connection error" rfl

lemma raw_ne_realsense (s t : String) :
    ("raw_frame_" ++ s) ≠ ("realsense_frame_" ++ t) := by
  intro h
  have hd : "raw_frame_".data ++ s.data = "realsense_frame_".data ++ t.data :=
    congrArg String.data h
  have h1 : ("raw_frame_".data ++ s.data)[1]? = some 'a' := by
    rw [List.getElem?_append_left (by decide)]
    rfl
  have h2 : ("realsense_frame_".data ++ t.data)[1]? = some 'e' := by
    rw [List.getElem?_append_left (by decide)]
    rfl
  rw [hd, h2] at h1
  simp at h1

/-- C7 counterexample: with sources of 1 and 2 frames, the terminating
iteration still calls `read()` on both captures, so the second frame
(frame m+1 of the longer source) is read and discarded — the claim's
"no attempt is made to read frames m+1 through n" fails at frame
m+1. -/
theorem claim_C7_counterexample :
    (framePairLoop env0 [] [] cfgOff ⟨30, 225, 3/5⟩ "p" 200
      [[1]] [[2], [3]] 0).processed = 1 ∧
    ¬ (framePairLoop env0 [] [] cfgOff ⟨30, 225, 3/5⟩ "p" 200
      [[1]] [[2], [3]] 0).rs_consumed ≤ 1 := by
  constructor
  · rfl
  · show ¬ (2 ≤ 1)
    omega

/-- C7 (amended): for sources of lengths m and n the walker processes
exactly `min m n` frame pairs and terminates the instant either source
yields no further frame; the terminating iteration still reads one
frame from each source, so exactly `min m (n+1)` frames of the raw
source and `min n (m+1)` frames of the realsense source are consumed —
frame m+1 of the longer source is read and discarded, frames m+2
through n are never read. -/
theorem claim_C7_walker_termination (env : Env)
    (pats : List (Option Image × String)) (out : FPath) (cfg : PipelineConfig)
    (bw : BwParams) (prompt : String) (th : Nat)
    (raws rss : List Image) (k : Nat) :
    (framePairLoop env pats out cfg bw prompt th raws rss k).processed =
      min raws.length rss.length ∧
    (framePairLoop env pats out cfg bw prompt th raws rss k).raw_consumed =
      min raws.length (rss.length + 1) ∧
    (framePairLoop env pats out cfg bw prompt th raws rss k).rs_consumed =
      min rss.length (raws.length + 1) := by
  induction raws generalizing rss k with
  | nil =>
    cases rss with
    | nil => simp [framePairLoop]
    | cons s ss => simp [framePairLoop]
  | cons r raws ih =>
    cases rss with
    | nil => simp [framePairLoop]
    | cons s ss =>
      obtain ⟨h1, h2, h3⟩ := ih ss (k + 1)
      simp only [framePairLoop, h1, h2, h3, List.length_cons]
      omega

/-- C8: every frame pair read from the sources yields exactly one
verdict (one per index, in read order), and the rejection log is
exactly the ordered sublist of rejected verdicts, keyed by the raw
frame name. -/
theorem claim_C8_one_verdict_per_pair (env : Env)
    (pats : List (Option Image × String)) (out : FPath) (cfg : PipelineConfig)
    (bw : BwParams) (prompt : String) (th : Nat)
    (raws rss : List Image) (k : Nat) :
    (framePairLoop env pats out cfg bw prompt th raws rss k).verdicts.length =
      min raws.length rss.length ∧
    (framePairLoop env pats out cfg bw prompt th raws rss k).verdicts.map
        (fun v => v.idx) = List.range' k (min raws.length rss.length) ∧
    (framePairLoop env pats out cfg bw prompt th raws rss k).removed_log =
      (framePairLoop env pats out cfg bw prompt th raws rss k).verdicts.filterMap
        (fun v => if v.accepted then none
          else some (raw_frame_name v.idx, v.reason)) := by
  induction raws generalizing rss k with
  | nil =>
    cases rss with
    | nil => simp [framePairLoop]
    | cons s ss => simp [framePairLoop]
  | cons r raws ih =>
    cases rss with
    | nil => simp [framePairLoop]
    | cons s ss =>
      obtain ⟨h1, h2, h3⟩ := ih ss (k + 1)
      have hmin : min (r :: raws).length (s :: ss).length =
          min raws.length ss.length + 1 := by
        simp only [List.length_cons]
        omega
      refine ⟨?_, ?_, ?_⟩
      · simp only [framePairLoop, List.length_cons, h1, hmin]
        omega
      · simp only [framePairLoop, List.map_cons, h2, hmin, List.range'_succ]
      · simp only [framePairLoop, List.filterMap_cons, h3]
        cases hacc : (load_and_process_frame_pair env r (raw_frame_name k) s
            (realsense_frame_name k) pats out cfg.run_solid_color_check
            cfg.run_object_detection cfg.run_pattern_matching bw prompt th).1.1 <;>
          simp [hacc]

/-- C10: every rejection-log entry records the raw-stream frame's name
`raw_frame_{index:05d}.png` as the frame identifier, even when the
rejection was decided on the realsense frame; a realsense frame name
never appears in the log. -/
theorem claim_C10_log_uses_raw_names (env : Env)
    (pats : List (Option Image × String)) (out : FPath) (cfg : PipelineConfig)
    (bw : BwParams) (prompt : String) (th : Nat)
    (raws rss : List Image) (k : Nat) :
    (∀ e ∈ (framePairLoop env pats out cfg bw prompt th raws rss k).removed_log,
      ∃ i, k ≤ i ∧ i < k + min raws.length rss.length ∧
        e.1 = raw_frame_name i) ∧
    (∀ e ∈ (framePairLoop env pats out cfg bw prompt th raws rss k).removed_log,
      ∀ j, e.1 ≠ realsense_frame_name j) := by
  have main : ∀ e ∈ (framePairLoop env pats out cfg bw prompt th raws rss
      k).removed_log, ∃ i, k ≤ i ∧ i < k + min raws.length rss.length ∧
      e.1 = raw_frame_name i := by
    induction raws generalizing rss k with
    | nil =>
      cases rss with
      | nil => simp [framePairLoop]
      | cons s ss => simp [framePairLoop]
    | cons r raws ih =>
      cases rss with
      | nil => simp [framePairLoop]
      | cons s ss =>
        intro e he
        simp only [framePairLoop, List.mem_append] at he
        rcases he with he | he
        · have : e = (raw_frame_name k,
              (load_and_process_frame_pair env r (raw_frame_name k) s
                (realsense_frame_name k) pats out cfg.run_solid_color_check
                cfg.run_object_detection cfg.run_pattern_matching bw prompt
                th).1.2) := by
            by_cases hacc : (load_and_process_frame_pair env r (raw_frame_name k) s
                (realsense_frame_name k) pats out cfg.run_solid_color_check
                cfg.run_object_detection cfg.run_pattern_matching bw prompt
                th).1.1
            · rw [if_pos hacc] at he
              cases he
            · rw [if_neg hacc] at he
              simpa using he
          refine ⟨k, Nat.le_refl k, ?_, by rw [this]⟩
          simp only [List.length_cons]
          omega
        · rcases ih ss (k + 1) e he with ⟨i, hk, hb, hname⟩
          refine ⟨i, by omega, ?_, hname⟩
          simp only [List.length_cons] at hb ⊢
          omega
  refine ⟨main, ?_⟩
  intro e he j
  rcases main e he with ⟨i, -, -, hname⟩
  rw [hname]
  exact raw_ne_realsense (pad5 i ++ ".png") (pad5 j ++ ".png")

lemma bw_single_zero : is_mostly_black_or_white (some [0]) 30 225 (3/5) = true := by
  rw [is_mostly_iff [0] 30 225 (3/5) (by decide)]
  left
  norm_num

lemma loop_log_single :
    (framePairLoop env0 [] [] cfgSolid ⟨30, 225, 3/5⟩ "p" 200
      [[5]] [[0]] 0).removed_log =
      [("raw_frame_00000.png", "Rejected: Mostly black or white")] := by
  simp only [framePairLoop, load_and_process_frame_pair, cfgSolid, bw_single_zero]
  rfl

/-- C10 witness: a pair rejected by the solid-color check (decided on
the realsense frame) is logged under the raw frame's name, which is
not a realsense frame name. -/
theorem claim_C10_witness :
    (("raw_frame_00000.png", "Rejected: Mostly black or white") :
        String × String).1 ≠ realsense_frame_name 0 :=
  (claim_C10_log_uses_raw_names env0 [] [] cfgSolid ⟨30, 225, 3/5⟩ "p" 200
    [[5]] [[0]] 0).2 _
    (loop_log_single ▸ List.mem_singleton.mpr rfl) 0

/-- C2: the evaluator runs the enabled stages in the fixed order
solid-frame check (on the realsense frame), scene-content check (on
the raw frame), pattern matching (on the realsense frame),
short-circuiting with a rejected verdict at the first failing stage
(the result is then independent of the later stages' capabilities);
with pattern matching enabled and an empty reference set the label is
`"No_Patterns_Available"`, with a `none` result from the Pattern
Matcher it is `"No_Pattern_Match"`, and with pattern matching disabled
it is `"Uncategorized"`. -/
theorem claim_C2_evaluator_stage_order (env : Env) (raw rs : Image)
    (rn sn : String) (pats : List (Option Image × String)) (out : FPath)
    (sc od pm : Bool) (bw : BwParams) (prompt : String) (th : Nat) :
    ((sc && is_mostly_black_or_white (some rs) bw.black_thresh bw.white_thresh
        bw.percentage_thresh) = true →
      load_and_process_frame_pair env raw rn rs sn pats out sc od pm bw prompt
        th = ((false, "Rejected: Mostly black or white"), [])) ∧
    ((sc && is_mostly_black_or_white (some rs) bw.black_thresh bw.white_thresh
        bw.percentage_thresh) = false →
      (od && (modelObjectDetection env (some raw) prompt).1) = true →
      load_and_process_frame_pair env raw rn rs sn pats out sc od pm bw prompt
        th = ((false, "Rejected: Man-made objects detected (" ++
          (modelObjectDetection env (some raw) prompt).2.take 50 ++ "...)"),
          [])) ∧
    ((sc && is_mostly_black_or_white (some rs) bw.black_thresh bw.white_thresh
        bw.percentage_thresh) = false →
      (od && (modelObjectDetection env (some raw) prompt).1) = false →
      pm = true → pats = [] →
      (load_and_process_frame_pair env raw rn rs sn pats out sc od pm bw prompt
        th).1 = (true, "No_Patterns_Available")) ∧
    ((sc && is_mostly_black_or_white (some rs) bw.black_thresh bw.white_thresh
        bw.percentage_thresh) = false →
      (od && (modelObjectDetection env (some raw) prompt).1) = false →
      pm = true → pats ≠ [] →
      patternThresholding env (some rs) pats th = none →
      (load_and_process_frame_pair env raw rn rs sn pats out sc od pm bw prompt
        th).1 = (true, "No_Pattern_Match")) ∧
    ((sc && is_mostly_black_or_white (some rs) bw.black_thresh bw.white_thresh
        bw.percentage_thresh) = false →
      (od && (modelObjectDetection env (some raw) prompt).1) = false →
      pm = false →
      (load_and_process_frame_pair env raw rn rs sn pats out sc od pm bw prompt
        th).1 = (true, "Uncategorized")) := by
  refine ⟨?_, ?_, ?_, ?_, ?_⟩
  · intro h1
    simp [load_and_process_frame_pair, h1]
  · intro h1 h2
    simp [load_and_process_frame_pair, h1, h2]
  · intro h1 h2 hpm hempty
    subst hpm hempty
    simp [load_and_process_frame_pair, h1, h2]
  · intro h1 h2 hpm hne hpat
    subst hpm
    have hemp : pats.isEmpty = false := by
      cases pats with
      | nil => exact absurd rfl hne
      | cons a l => rfl
    simp [load_and_process_frame_pair, h1, h2, hemp, hpat]
  · intro h1 h2 hpm
    subst hpm
    simp [load_and_process_frame_pair, h1, h2]

/-- C2 witness: a mostly-black realsense frame short-circuits the
evaluator at the solid-color stage. -/
theorem claim_C2_witness :
    (true && is_mostly_black_or_white (some [0]) 30 225 (3/5)) = true ∧
    load_and_process_frame_pair env0 [5] "r" [0] "s" [] [] true true true
      ⟨30, 225, 3/5⟩ "p" 200 = ((false, "Rejected: Mostly black or white"), []) :=
  ⟨by simp [bw_single_zero],
   (claim_C2_evaluator_stage_order env0 [5] [0] "r" "s" [] [] true true true
     ⟨30, 225, 3/5⟩ "p" 200).1 (by simp [bw_single_zero])⟩

/-- The filesystem just after the output-directory preparation, and the
final filesystem, as functions of the run. -/
lemma process_fs_eqs (env : Env) (job_id : String) (rv sv : List Image)
    (pi : List (Option Image × String)) (tp : ThresParams)
    (cfg : PipelineConfig) (fs0 : List FPath) :
    (process_video_frames env job_id rv sv pi tp cfg fs0).fs_after_prepare =
      prepare_output_dir job_id fs0 ∧
    (process_video_frames env job_id rv sv pi tp cfg fs0).final_fs =
      (prepare_output_dir job_id fs0 ++
        (process_video_frames env job_id rv sv pi tp cfg fs0).loop.written) ++
        [removed_log_path job_id] :=
  ⟨rfl, rfl⟩

/-- C9: at run start the job's `Accepted_images` output directory is
cleared before any frame is processed — no pre-existing file under it
survives into the state the walker loop starts from, and every file
under it at the end of the run was produced by this run (an accepted
pair's image or the rejection log). -/
theorem claim_C9_output_dir_reset (env : Env) (job_id : String)
    (rv sv : List Image) (pi : List (Option Image × String))
    (tp : ThresParams) (cfg : PipelineConfig) (fs0 : List FPath) :
    ((process_video_frames env job_id rv sv pi tp cfg fs0).fs_after_prepare.filter
      (fun p => (output_base_dir_of job_id).isPrefixOf p) = []) ∧
    (∀ p ∈ fs0, (output_base_dir_of job_id).isPrefixOf p = true →
      p ∉ (process_video_frames env job_id rv sv pi tp cfg
        fs0).fs_after_prepare) ∧
    (∀ p ∈ (process_video_frames env job_id rv sv pi tp cfg fs0).final_fs,
      (output_base_dir_of job_id).isPrefixOf p = true →
      p ∈ (process_video_frames env job_id rv sv pi tp cfg fs0).loop.written ∨
        p = removed_log_path job_id) := by
  obtain ⟨hprep, hfin⟩ := process_fs_eqs env job_id rv sv pi tp cfg fs0
  have hnotmem : ∀ p, (output_base_dir_of job_id).isPrefixOf p = true →
      p ∉ prepare_output_dir job_id fs0 := by
    intro p hpref hmem
    have := (List.mem_filter.mp hmem).2
    rw [hpref] at this
    cases this
  refine ⟨?_, ?_, ?_⟩
  · rw [hprep, List.filter_eq_nil_iff]
    intro p hmem hpref
    exact hnotmem p hpref hmem
  · intro p _ hpref
    rw [hprep]
    exact hnotmem p hpref
  · intro p hmem hpref
    rw [hfin] at hmem
    rcases List.mem_append.mp hmem with hmem | hmem
    · rcases List.mem_append.mp hmem with hmem | hmem
      · exact absurd hmem (hnotmem p hpref)
      · exact Or.inl hmem
    · exact Or.inr (List.mem_singleton.mp hmem)

/-- C9 witness: a file left under the job's output directory by an
earlier run is gone after preparation. -/
theorem claim_C9_witness :
    ["pipeline_output", "j0", "Accepted_images", "A", "raw", "f.png"] ∉
      (process_video_frames env0 "j0" [] [] [] tp0 cfgOff
        [["pipeline_output", "j0", "Accepted_images", "A", "raw",
          "f.png"]]).fs_after_prepare :=
  (claim_C9_output_dir_reset env0 "j0" [] [] [] tp0 cfgOff
    [["pipeline_output", "j0", "Accepted_images", "A", "raw", "f.png"]]).2.1
    _ (List.mem_singleton.mpr rfl) (by decide)

/-- The returned archive name as a function of the final filesystem. -/
lemma zip_file_name_eq (env : Env) (job_id : String) (rv sv : List Image)
    (pi : List (Option Image × String)) (tp : ThresParams)
    (cfg : PipelineConfig) (fs0 : List FPath) :
    (process_video_frames env job_id rv sv pi tp cfg fs0).zip_file_name =
      (if ((prepare_output_dir job_id fs0 ++
          (process_video_frames env job_id rv sv pi tp cfg fs0).loop.written) ++
          [removed_log_path job_id]).any
          (fun p => (output_base_dir_of job_id).isPrefixOf p)
        then some (zip_name_of job_id) else none) :=
  rfl

/-- C1: the rejection log `removed_images_log.txt` is written into the
`Accepted_images` directory before `os.listdir` checks that directory
for content, so the check always finds at least the log file and a zip
archive is ALWAYS created — even for a run in which zero frame pairs
are accepted the returned archive name is `Results_{job_id}.zip`, not
`none` (the source's "No images were accepted. ZIP file not created."
branch is unreachable), contradicting the claim. -/
theorem claim_C1_zip_always_created (env : Env) (job_id : String)
    (rv sv : List Image) (pi : List (Option Image × String))
    (tp : ThresParams) (cfg : PipelineConfig) (fs0 : List FPath) :
    (process_video_frames env job_id rv sv pi tp cfg fs0).zip_file_name =
      some (zip_name_of job_id) := by
  rw [zip_file_name_eq]
  rw [if_pos]
  apply List.any_eq_true.mpr
  refine ⟨removed_log_path job_id, ?_, ?_⟩
  · exact List.mem_append.mpr (Or.inr (List.mem_singleton.mpr rfl))
  · exact isPrefixOf_eq_true_iff (output_base_dir_of job_id)
      (removed_log_path job_id) |>.mpr ⟨["removed_images_log.txt"], rfl⟩

end PRaCfID
